import Mathlib

/-!
Verification of the classification cascade of the Computer Error Detection
backend against its natural-language specification.

The Python sources under `backend/` are shallowly embedded below:

* `rules.py`               → `RuleKeywords`, `Rule`, `RULES`, `match_rule`
* `multi_component_mapping.py` → `PROBLEM_TO_COMPONENTS`,
                             `get_related_components`, `group_by_category`
* `hierarchical_inference.py` → `HierModels`, `predict_hierarchical`
* `app.py` (`product_need_recommend`, `predict_product_need`,
  `detect_error_type_hybrid`) → `product_need_recommend`,
  `predict_product_need`, `detect_error_type_hybrid`
* `feedback_storage.py`    → `FeedbackRecord` (the CSV append is modelled as
                             a pure list of records produced by one call)
* `retrain_with_feedback.py` → `componentTrainingData`, `retrain_models`

Modelling conventions:

* Python floats become `ℚ`; every numeric literal in the embedded code is a
  finite decimal, so the translation is exact (float rounding is ignored;
  the one claim that mentions ±ε holds exactly over `ℚ`).
* A statistical model (an opaque `predict_proba` artifact) becomes a function
  `String → Except String (List (String × ℚ))` pairing each class with its
  probability, `Option`-wrapped where the artifact may be absent on disk.
  An `Except.error` models the stage throwing.
* `numpy.argsort` is modelled as a stable ascending sort of the index list
  (ties resolved by position); `[::-1]` is `List.reverse`; `numpy.argmax`
  returns the first index attaining the maximum, as in numpy.
* Python's stable `list.sort(key=..., reverse=True)` is `List.mergeSort`
  with the comparator `b.2 ≤ a.2` (core's `mergeSort` is stable).
* Python dicts that are only built once and looked up become association
  lists in insertion order; dict assignment is update-or-append.
* HTTP-level `HTTPException` raising is modelled as `Except.error` carrying
  the status code.
-/

/- The claims are settled on concrete runs of the embedded cascade, so the
rational arithmetic must evaluate inside `decide`/`rfl` proofs; the
arithmetic on `Rat` is made semireducible for this file to allow that. -/
set_option allowUnsafeReducibility true
attribute [local semireducible] Rat.mul Rat.div Rat.inv Rat.add Rat.sub Rat.neg

/-- Python `needle in haystack` on strings: contiguous-substring test. -/
def strContainsSub (hay needle : String) : Bool :=
  hay.data.tails.any (fun t => needle.data.isPrefixOf t)

/-- Drop leading whitespace characters. -/
def dropLeadingWs : List Char → List Char
  | [] => []
  | c :: cs => if c.isWhitespace then dropLeadingWs cs else c :: cs

/-- Python `str.strip()` (whitespace at both ends; Python also strips a
few rarer whitespace code points, which never occur in the embedded data). -/
def pyStrip (s : String) : String :=
  ⟨(dropLeadingWs (dropLeadingWs s.data).reverse).reverse⟩

/-- Python `str.lower()` (ASCII case folding, which covers every keyword
in the embedded tables). -/
def pyLower (s : String) : String :=
  ⟨s.data.map Char.toLower⟩

/-- Python truthiness of an optional string (`None` and `""` are falsy). -/
def strOptTruthy : Option String → Bool
  | none => false
  | some s => s ≠ ""

/-- Dict assignment `d[k] = v` on an insertion-ordered association list:
update the first binding of `k` in place, else append. -/
def assocSet (l : List (String × String)) (k v : String) : List (String × String) :=
  match l with
  | [] => [(k, v)]
  | (k', v') :: rest => if k' = k then (k, v) :: rest else (k', v') :: assocSet rest k v

/-- Dict lookup `d.get(k)` on an association list. -/
def assocGet (l : List (String × α)) (k : String) : Option α :=
  (l.find? (fun p => p.1 = k)).map Prod.snd

/-- The comparison used by Python `list.sort(key=confidence, reverse=True)`. -/
def confDescRel (a b : String × ℚ) : Prop := b.2 ≤ a.2

instance confDescRelDec : DecidableRel confDescRel :=
  fun a b => inferInstanceAs (Decidable (b.2 ≤ a.2))

instance confDescRelTotal : IsTotal (String × ℚ) confDescRel :=
  ⟨fun a b => le_total b.2 a.2⟩

instance confDescRelTrans : IsTrans (String × ℚ) confDescRel :=
  ⟨fun _ _ _ hab hbc => le_trans hbc hab⟩

/-- Python `sorted`/`list.sort` with `key=confidence, reverse=True`:
stable descending sort on the second component (insertion sort is stable,
like CPython's sort). -/
def sortByConfDesc (l : List (String × ℚ)) : List (String × ℚ) :=
  l.insertionSort confDescRel

/-- `numpy.argmax`: first index attaining the maximal value (`0` on `[]`). -/
def argmaxIdx (l : List ℚ) : ℕ :=
  (l.foldl
    (fun (st : ℕ × ℕ × ℚ) v =>
      if st.2.2 < v then (st.2.1, st.2.1 + 1, v) else (st.1, st.2.1 + 1, st.2.2))
    (0, 0, l.headD 0)).1

/-- Comparator of the `numpy.argsort` model: ascending by value, ties by
ascending index (a stable ascending sort of the index list). -/
def argsortRel (vals : List ℚ) (i j : ℕ) : Prop :=
  vals.getD i 0 < vals.getD j 0 ∨ (vals.getD i 0 = vals.getD j 0 ∧ i ≤ j)

instance argsortRelDec (vals : List ℚ) : DecidableRel (argsortRel vals) :=
  fun i j => inferInstanceAs
    (Decidable (vals.getD i 0 < vals.getD j 0 ∨ (vals.getD i 0 = vals.getD j 0 ∧ i ≤ j)))

instance argsortRelTotal (vals : List ℚ) : IsTotal ℕ (argsortRel vals) :=
  ⟨fun a b => by
    rcases lt_trichotomy (vals.getD a 0) (vals.getD b 0) with h | h | h
    · exact Or.inl (Or.inl h)
    · rcases Nat.le_total a b with h' | h'
      · exact Or.inl (Or.inr ⟨h, h'⟩)
      · exact Or.inr (Or.inr ⟨h.symm, h'⟩)
    · exact Or.inr (Or.inl h)⟩

instance argsortRelTrans (vals : List ℚ) : IsTrans ℕ (argsortRel vals) :=
  ⟨fun a b c hab hbc => by
    rcases hab with h1 | ⟨h1, h1'⟩ <;> rcases hbc with h2 | ⟨h2, h2'⟩
    · exact Or.inl (lt_trans h1 h2)
    · exact Or.inl (lt_of_lt_of_le h1 (le_of_eq h2))
    · exact Or.inl (lt_of_le_of_lt (le_of_eq h1) h2)
    · exact Or.inr ⟨h1.trans h2, le_trans h1' h2'⟩⟩

/-- `numpy.argsort(vals)`: index list sorted ascending by value. -/
def argsortAsc (vals : List ℚ) : List ℕ :=
  (List.range vals.length).insertionSort (argsortRel vals)

/-- `[(classes[i], probs[i]) for i in np.argsort(probs)[::-1][:k]]`:
the `k` highest-probability pairs in descending order. -/
def topKRanked (pairs : List (String × ℚ)) (k : ℕ) : List (String × ℚ) :=
  ((argsortAsc (pairs.map Prod.snd)).reverse.take k).map (fun i => pairs.getD i ("", 0))

/-- The `seen`-set deduplication loop used by `get_related_components` and
by stage 2 of `product_need_recommend`: keep the first pair per label. -/
def dedupFirstAux (seen : List String) : List (String × ℚ) → List (String × ℚ)
  | [] => []
  | p :: rest =>
    if seen.contains p.1 then dedupFirstAux seen rest
    else p :: dedupFirstAux (p.1 :: seen) rest

/-- Deduplicate by label, keeping the first occurrence of each label. -/
def dedupFirst (l : List (String × ℚ)) : List (String × ℚ) :=
  dedupFirstAux [] l

/-! ## `rules.py` -/

/-- A rule condition: a list of keywords that must all occur (`AND`), or a
single keyword (`rules.py` stores either a `list` or a plain string). -/
inductive RuleKeywords where
  | andList (kws : List String)
  | single (kw : String)
deriving DecidableEq

/-- One entry of `RULES` in `rules.py`; `related_components` defaults to
`[]` exactly as `rule.get("related_components", [])` does. -/
structure Rule where
  keywords : RuleKeywords
  component : String
  confidence : ℚ
  explanation : String
  related_components : List String
deriving DecidableEq

/-- The rule condition check of `match_rule` on the normalized text:
every keyword (lowercased) must be a substring; a single keyword is one
substring test. -/
def ruleMatches (r : Rule) (textLower : String) : Bool :=
  match r.keywords with
  | .andList kws => kws.all (fun kw => strContainsSub textLower (pyLower kw))
  | .single kw => strContainsSub textLower (pyLower kw)

/-- The tuple `(component, confidence, explanation, related_components)`
that `match_rule` returns for a fired rule. -/
def rulePack (r : Rule) : String × ℚ × String × List String :=
  (r.component, r.confidence, r.explanation, r.related_components)

/-- `match_rule(text)` from `rules.py`, parametrized by the rule table:
normalize with `lower().strip()`, walk the rules in order, return the data
of the first rule whose condition fires, else `None`. -/
def match_rule (rules : List Rule) (text : String) : Option (String × ℚ × String × List String) :=
  let textLower := pyStrip (pyLower text)
  (rules.find? (fun r => ruleMatches r textLower)).map rulePack


/-! The concrete rule table of `rules.py`, split into chunks of 20 entries
purely to keep list-literal elaboration cheap; `RULES` is their
concatenation in declaration order. Confidences are the exact decimal
literals as rationals. -/

def rulesChunk0 : List Rule := [
  ⟨.single "ps not start", "PSU Upgrade", 19/20, "Power supply not starting indicates PSU failure. Also check power cable.", ["Power Cable Replacement"]⟩,
  ⟨.single "pc not start", "PSU Upgrade", 47/50, "PC not starting could be PSU or power cable issue.", ["Power Cable Replacement"]⟩,
  ⟨.single "no power", "PSU Upgrade", 19/20, "No power usually means PSU failure.", ["Power Cable Replacement"]⟩,
  ⟨.single "pc slow", "RAM Upgrade", 9/10, "Slow PC often needs RAM or SSD upgrade.", ["SSD Upgrade", "CPU Upgrade"]⟩,
  ⟨.single "pc vey slow", "RAM Upgrade", 9/10, "Very slow PC typically needs RAM or SSD upgrade.", ["SSD Upgrade"]⟩,
  ⟨.single "computer slow", "RAM Upgrade", 9/10, "Slow computer usually needs RAM or SSD upgrade.", ["SSD Upgrade"]⟩,
  ⟨.single "no internet", "WiFi Adapter Upgrade", 23/25, "No internet could be WiFi adapter or router issue.", ["Router Upgrade"]⟩,
  ⟨.single "no internet in my pc", "WiFi Adapter Upgrade", 23/25, "No internet on PC suggests WiFi adapter or router problem.", ["Router Upgrade"]⟩,
  ⟨.andList ["no display", "fans spinning", "no signal"], "Monitor or GPU Check", 19/20, "No display with fans spinning typically indicates a GPU or monitor issue. Check GPU connections and monitor cables first.", []⟩,
  ⟨.andList ["no display", "black screen", "fans working"], "Monitor or GPU Check", 19/20, "Black screen with working fans suggests a display or GPU problem. Verify monitor connections and GPU seating.", []⟩,
  ⟨.single "pc shuts down instantly", "PSU Upgrade", 24/25, "Instant shutdowns are typically caused by power supply failure. The PSU cannot provide stable power to components.", []⟩,
  ⟨.single "immediate shutdown", "PSU Upgrade", 24/25, "Immediate shutdowns indicate power supply failure. Replace the PSU.", []⟩,
  ⟨.andList ["random shutdown", "power issue", "turns off randomly"], "PSU Upgrade", 47/50, "Random shutdowns often indicate insufficient or failing power supply. Upgrade to a higher wattage PSU.", []⟩,
  ⟨.andList ["no power", "won\x27t turn on", "dead"], "PSU Upgrade", 19/20, "Complete power failure usually indicates a dead power supply unit. Replace the PSU.", []⟩,
  ⟨.andList ["slow", "multitasking", "chrome tabs", "browser"], "RAM Upgrade", 23/25, "Slow performance with multiple browser tabs typically indicates insufficient RAM. Upgrade RAM for better multitasking.", []⟩,
  ⟨.andList ["tabs closing", "out of memory", "memory error"], "RAM Upgrade", 93/100, "Browser tabs closing automatically or memory errors suggest RAM capacity issues. Add more RAM.", []⟩,
  ⟨.andList ["slow boot", "takes long to start", "windows slow startup"], "SSD Upgrade", 91/100, "Slow boot times are often caused by old HDD. Upgrade to SSD for significantly faster startup.", []⟩,
  ⟨.andList ["loading slow", "files slow", "disk 100%"], "SSD Upgrade", 9/10, "Slow file loading and high disk usage indicate storage bottleneck. Upgrade to SSD for better performance.", []⟩,
  ⟨.single "low fps", "GPU Upgrade", 23/25, "Low FPS typically indicates insufficient GPU power. Upgrade your graphics card.", []⟩,
  ⟨.single "gaming lag", "GPU Upgrade", 23/25, "Gaming lag typically indicates insufficient GPU power. Upgrade your graphics card.", []⟩
]

def rulesChunk1 : List Rule := [
  ⟨.single "frame drops", "GPU Upgrade", 23/25, "Frame drops typically indicate insufficient GPU power. Upgrade your graphics card.", []⟩,
  ⟨.andList ["graphics card", "gpu", "video card"], "GPU Upgrade", 22/25, "Explicit mention of graphics card suggests GPU upgrade is needed.", []⟩,
  ⟨.andList ["overheating", "too hot", "thermal"], "CPU Cooler Upgrade", 9/10, "Overheating issues require better cooling. Upgrade CPU cooler and ensure proper thermal paste application.", []⟩,
  ⟨.andList ["thermal paste", "cpu temperature", "high temp"], "Thermal Paste Reapply", 93/100, "High CPU temperatures often indicate dried or improperly applied thermal paste. Reapply thermal paste.", []⟩,
  ⟨.andList ["wifi disconnects", "unstable wifi", "internet drops"], "WiFi Adapter Upgrade", 91/100, "Unstable WiFi connections suggest adapter issues. Upgrade to a better WiFi adapter.", []⟩,
  ⟨.andList ["no wifi", "can\x27t connect", "wifi not working"], "WiFi Adapter Upgrade", 89/100, "Complete WiFi failure may indicate adapter malfunction. Replace or upgrade WiFi adapter.", []⟩,
  ⟨.andList ["flickering", "lines on screen", "artifacts"], "Monitor or GPU Check", 23/25, "Screen flickering or artifacts can indicate GPU issues or monitor problems. Check both components.", []⟩,
  ⟨.andList ["dead pixels", "screen damage", "cracked screen"], "Monitor Replacement", 19/20, "Physical screen damage requires monitor replacement.", []⟩,
  ⟨.andList ["slow boot", "takes long to start", "windows slow startup"], "SSD Upgrade", 91/100, "Slow boot times are often caused by old HDD. Upgrade to SSD for significantly faster startup.", ["RAM Upgrade"]⟩,
  ⟨.andList ["loading slow", "files slow", "disk 100%"], "SSD Upgrade", 9/10, "Slow file loading and high disk usage indicate storage bottleneck. Upgrade to SSD for better performance.", ["RAM Upgrade"]⟩,
  ⟨.andList ["low fps", "frame rate low", "fps drops"], "GPU Upgrade", 23/25, "Low FPS typically indicates insufficient GPU power. Upgrade your graphics card.", ["CPU Upgrade", "RAM Upgrade"]⟩,
  ⟨.andList ["gaming lag", "game stutter", "game performance"], "GPU Upgrade", 23/25, "Gaming lag typically indicates insufficient GPU power. Upgrade your graphics card.", ["CPU Upgrade"]⟩,
  ⟨.andList ["slow multitasking", "many programs", "multiple apps"], "RAM Upgrade", 23/25, "Slow performance with multiple programs typically indicates insufficient RAM. Upgrade RAM for better multitasking.", ["SSD Upgrade", "CPU Upgrade"]⟩,
  ⟨.andList ["tabs closing", "out of memory", "memory error"], "RAM Upgrade", 93/100, "Browser tabs closing automatically or memory errors suggest RAM capacity issues. Add more RAM.", []⟩,
  ⟨.andList ["cpu overheating", "processor too hot", "cpu temperature"], "CPU Cooler Upgrade", 9/10, "CPU overheating requires better cooling. Upgrade CPU cooler and ensure proper thermal paste application.", ["Thermal Paste Reapply", "Case Fan Upgrade"]⟩,
  ⟨.andList ["gpu overheating", "graphics card hot", "gpu temperature"], "GPU Cooler Upgrade", 9/10, "GPU overheating requires better cooling. Check GPU fans and consider upgrading GPU cooler.", ["Case Fan Upgrade"]⟩,
  ⟨.andList ["wifi disconnects", "unstable wifi", "internet drops"], "WiFi Adapter Upgrade", 91/100, "Unstable WiFi connections suggest adapter issues. Upgrade to a better WiFi adapter.", ["Router Upgrade"]⟩,
  ⟨.andList ["no wifi", "can\x27t connect", "wifi not working"], "WiFi Adapter Upgrade", 89/100, "Complete WiFi failure may indicate adapter malfunction. Replace or upgrade WiFi adapter.", ["Router Upgrade"]⟩,
  ⟨.andList ["laptop battery", "battery not charging", "battery dead"], "Laptop Battery Replacement", 93/100, "Laptop battery issues require battery replacement. Check if battery is swollen or not holding charge.", []⟩,
  ⟨.andList ["usb ports not enough", "need more usb", "usb devices not connecting"], "USB Hub", 22/25, "Insufficient USB ports can be solved with a USB hub. Connect multiple devices simultaneously.", []⟩
]

def rulesChunk2 : List Rule := [
  ⟨.single "lap camera", "Webcam Upgrade", 19/20, "Laptop camera not working requires webcam upgrade or repair. Check if it\x27s a built-in laptop camera or external webcam.", []⟩,
  ⟨.single "laptop camera", "Webcam Upgrade", 19/20, "Laptop camera not working requires webcam upgrade or repair. Check if it\x27s a built-in laptop camera or external webcam.", []⟩,
  ⟨.single "camera not working", "Webcam Upgrade", 19/20, "Camera not working requires webcam upgrade or repair. Check if it\x27s a built-in laptop camera or external webcam.", []⟩,
  ⟨.single "webcam not working", "Webcam Upgrade", 19/20, "Webcam not working requires webcam upgrade or repair. Check if it\x27s a built-in laptop camera or external webcam.", []⟩,
  ⟨.andList ["zoom", "no sound"], "Audio Issue", 93/100, "Zoom no sound is an audio issue. Check audio settings in Zoom and Windows.", []⟩,
  ⟨.andList ["teams", "no sound"], "Audio Issue", 93/100, "Teams no sound is an audio issue. Check audio settings in Teams and Windows.", []⟩,
  ⟨.andList ["zoom", "no audio"], "Audio Issue", 93/100, "Zoom no audio is an audio issue. Check audio settings and device selection.", []⟩,
  ⟨.andList ["zoom", "camera"], "Webcam Upgrade", 19/20, "Zoom camera issues are webcam problems. Check webcam settings in Zoom and Windows Privacy settings.", []⟩,
  ⟨.andList ["zoom", "video"], "Webcam Upgrade", 47/50, "Zoom video not working indicates webcam problem. Check webcam permissions and hardware.", []⟩,
  ⟨.andList ["zoom", "not showing"], "Webcam Upgrade", 47/50, "Zoom not showing video is a webcam issue. Check webcam settings and permissions.", []⟩,
  ⟨.andList ["zoom", "can\x27t see"], "Webcam Upgrade", 47/50, "Can\x27t see yourself in Zoom means webcam is not working. Check webcam settings and hardware.", []⟩,
  ⟨.single "zoom application", "Webcam Upgrade", 93/100, "Zoom application camera/video issues are webcam problems. Check webcam settings and permissions.", []⟩,
  ⟨.single "zoom", "Webcam Upgrade", 9/10, "Zoom issues are usually webcam problems. Check webcam settings in Zoom and Windows Privacy settings.", []⟩,
  ⟨.andList ["zoom", "camera"], "Webcam Upgrade", 47/50, "Zoom camera not showing is a webcam issue. Check webcam settings in Zoom and Windows Privacy settings.", []⟩,
  ⟨.andList ["zoom", "video"], "Webcam Upgrade", 47/50, "Zoom video not working indicates webcam problem. Check webcam permissions and hardware.", []⟩,
  ⟨.andList ["zoom", "not showing"], "Webcam Upgrade", 47/50, "Zoom not showing video is a webcam issue. Check webcam settings and permissions.", []⟩,
  ⟨.andList ["zoom", "can\x27t see"], "Webcam Upgrade", 47/50, "Can\x27t see yourself in Zoom means webcam is not working. Check webcam settings and hardware.", []⟩,
  ⟨.single "zoom application", "Webcam Upgrade", 93/100, "Zoom application camera/video issues are webcam problems. Check webcam settings and permissions.", []⟩,
  ⟨.single "teams", "Webcam Upgrade", 23/25, "Teams camera/video issues are webcam problems. Check webcam settings in Teams and Windows.", []⟩,
  ⟨.andList ["teams", "camera"], "Webcam Upgrade", 47/50, "Teams camera not working is a webcam issue. Check webcam settings in Teams and Windows.", []⟩
]

def rulesChunk3 : List Rule := [
  ⟨.single "skype", "Webcam Upgrade", 23/25, "Skype camera/video issues are webcam problems. Check webcam permissions and hardware.", []⟩,
  ⟨.andList ["skype", "camera"], "Webcam Upgrade", 47/50, "Skype camera not working indicates webcam problem. Check webcam permissions and hardware.", []⟩,
  ⟨.single "video call", "Webcam Upgrade", 91/100, "Video call issues are usually webcam problems. Check webcam settings and permissions.", []⟩,
  ⟨.andList ["video call", "camera"], "Webcam Upgrade", 93/100, "Video call camera not working is a webcam issue. Check webcam settings and permissions.", []⟩,
  ⟨.andList ["video call", "no video"], "Webcam Upgrade", 93/100, "No video in video calls indicates webcam problem. Check webcam hardware and settings.", []⟩,
  ⟨.single "meeting", "Webcam Upgrade", 9/10, "Meeting camera issues are webcam problems. Check webcam permissions and hardware.", []⟩,
  ⟨.andList ["meeting", "camera"], "Webcam Upgrade", 93/100, "Camera not showing in meetings is a webcam issue. Check webcam permissions and hardware.", []⟩,
  ⟨.andList ["zoom", "mic"], "Microphone Upgrade", 23/25, "Zoom microphone issues may require microphone upgrade. Check mic settings and permissions.", []⟩,
  ⟨.andList ["teams", "mic"], "Microphone Upgrade", 23/25, "Teams microphone issues may require microphone upgrade. Check mic settings and permissions.", []⟩,
  ⟨.andList ["discord", "mic"], "Microphone Upgrade", 23/25, "Discord microphone issues may require microphone upgrade. Check mic settings and permissions.", []⟩,
  ⟨.andList ["can\x27t hear me"], "Microphone Upgrade", 91/100, "People can\x27t hear you indicates microphone problem. Check mic settings and hardware.", []⟩,
  ⟨.andList ["tabs closing"], "RAM Upgrade", 23/25, "Browser tabs closing automatically indicates insufficient RAM. Upgrade RAM for better multitasking.", []⟩,
  ⟨.andList ["chrome tabs"], "RAM Upgrade", 91/100, "Chrome tabs issues often indicate RAM problems. Check RAM usage and consider upgrade.", []⟩,
  ⟨.andList ["photoshop", "slow"], "RAM Upgrade", 9/10, "Photoshop slow performance typically needs more RAM. Check RAM usage during Photoshop.", []⟩,
  ⟨.andList ["premiere", "slow"], "RAM Upgrade", 9/10, "Premiere Pro slow performance typically needs more RAM. Video editing requires lots of RAM.", []⟩,
  ⟨.andList ["games", "long to load"], "SSD Upgrade", 91/100, "Games taking long to load indicates slow storage. Upgrade to SSD for faster loading times.", []⟩,
  ⟨.andList ["games", "slow to load"], "SSD Upgrade", 91/100, "Games slow to load indicates storage bottleneck. SSD upgrade significantly improves loading times.", []⟩,
  ⟨.andList ["loading", "slow"], "SSD Upgrade", 9/10, "Slow loading times indicate storage bottleneck. Upgrade to SSD for better performance.", []⟩,
  ⟨.andList ["netflix", "buffering"], "WiFi Adapter Upgrade", 23/25, "Netflix buffering indicates network issue. Check WiFi adapter and connection speed.", []⟩,
  ⟨.andList ["youtube", "buffering"], "WiFi Adapter Upgrade", 23/25, "YouTube buffering indicates network issue. Check WiFi adapter and connection speed.", []⟩
]

def rulesChunk4 : List Rule := [
  ⟨.andList ["streaming", "buffering"], "WiFi Adapter Upgrade", 91/100, "Streaming buffering indicates network issue. Upgrade WiFi adapter for better connection.", []⟩,
  ⟨.single "camera not detected", "Webcam Upgrade", 47/50, "Camera not being detected suggests hardware or driver issue. May need webcam upgrade or driver update.", []⟩,
  ⟨.single "webcam not detected", "Webcam Upgrade", 47/50, "Webcam not being detected suggests hardware or driver issue. May need webcam upgrade or driver update.", []⟩,
  ⟨.single "camera not showing", "Webcam Upgrade", 47/50, "Camera not showing suggests hardware or driver issue. May need webcam upgrade or driver update.", []⟩,
  ⟨.single "camera error", "Webcam Upgrade", 93/100, "Camera errors typically indicate hardware failure or driver issues. Consider webcam upgrade.", []⟩,
  ⟨.single "webcam error", "Webcam Upgrade", 93/100, "Webcam errors typically indicate hardware failure or driver issues. Consider webcam upgrade.", []⟩,
  ⟨.single "camera problem", "Webcam Upgrade", 93/100, "Camera problems typically indicate hardware failure or driver issues. Consider webcam upgrade.", []⟩,
  ⟨.single "webcam problem", "Webcam Upgrade", 93/100, "Webcam problems typically indicate hardware failure or driver issues. Consider webcam upgrade.", []⟩,
  ⟨.single "camera not responding", "Webcam Upgrade", 19/20, "Camera not responding usually means hardware failure. Upgrade to a new webcam.", []⟩,
  ⟨.single "webcam not responding", "Webcam Upgrade", 19/20, "Webcam not responding usually means hardware failure. Upgrade to a new webcam.", []⟩,
  ⟨.single "camera broken", "Webcam Upgrade", 19/20, "Broken camera requires webcam upgrade. Install a new webcam.", []⟩,
  ⟨.single "no camera", "Webcam Upgrade", 23/25, "Missing camera requires webcam upgrade. Install an external webcam if built-in camera is not available.", []⟩,
  ⟨.single "no webcam", "Webcam Upgrade", 23/25, "Missing webcam requires webcam upgrade. Install an external webcam if built-in camera is not available.", []⟩,
  ⟨.single "camera missing", "Webcam Upgrade", 23/25, "Missing camera requires webcam upgrade. Install an external webcam if built-in camera is not available.", []⟩
]

def RULES : List Rule :=
  rulesChunk0 ++ rulesChunk1 ++ rulesChunk2 ++ rulesChunk3 ++ rulesChunk4

/-! ## `multi_component_mapping.py` -/

def PROBLEM_TO_COMPONENTS : List (String × List String) := [
  ("slow", ["RAM Upgrade", "SSD Upgrade", "CPU Upgrade"]),
  ("sluggish", ["RAM Upgrade", "SSD Upgrade"]),
  ("lag", ["RAM Upgrade", "GPU Upgrade"]),
  ("freeze", ["RAM Upgrade", "SSD Upgrade"]),
  ("hanging", ["RAM Upgrade", "SSD Upgrade"]),
  ("slow boot", ["SSD Upgrade", "RAM Upgrade"]),
  ("takes long to start", ["SSD Upgrade"]),
  ("boot time", ["SSD Upgrade"]),
  ("low fps", ["GPU Upgrade", "RAM Upgrade"]),
  ("gaming lag", ["GPU Upgrade", "RAM Upgrade"]),
  ("frame drops", ["GPU Upgrade"]),
  ("overheat", ["CPU Cooler Upgrade", "Case Fan Upgrade", "Thermal Paste Reapply"]),
  ("too hot", ["CPU Cooler Upgrade", "Case Fan Upgrade"]),
  ("heating", ["CPU Cooler Upgrade", "Thermal Paste Reapply"]),
  ("shuts down", ["PSU Upgrade", "CPU Cooler Upgrade"]),
  ("random shutdown", ["PSU Upgrade"]),
  ("no power", ["PSU Upgrade", "Power Cable Replacement"]),
  ("wont start", ["PSU Upgrade", "Power Cable Replacement"]),
  ("no display", ["Monitor or GPU Check", "Display Cable Replacement"]),
  ("black screen", ["Monitor or GPU Check", "GPU Upgrade"]),
  ("no signal", ["Monitor or GPU Check", "Display Cable Replacement"]),
  ("no internet", ["WiFi Adapter Upgrade", "Router Upgrade"]),
  ("wifi disconnects", ["WiFi Adapter Upgrade"]),
  ("slow internet", ["WiFi Adapter Upgrade", "Router Upgrade"]),
  ("full", ["SSD Upgrade", "HDD Upgrade"]),
  ("no space", ["SSD Upgrade", "HDD Upgrade"]),
  ("storage", ["SSD Upgrade", "HDD Upgrade"])
]

/-- The candidate list built by the pattern loop of `get_related_components`:
for every problem key that occurs in the lowercased text, every component of
its list other than the primary one, scored `0.7` when the component is a
member of its own list (the guard the source writes) and `0.5` otherwise. -/
def relatedCandidates (text primaryComponent : String) : List (String × ℚ) :=
  let textLower := pyLower text
  (PROBLEM_TO_COMPONENTS.filter (fun pc => strContainsSub textLower pc.1)).flatMap
    (fun pc =>
      (pc.2.filter (fun comp => comp ≠ primaryComponent)).map
        (fun comp => (comp, if pc.2.contains comp then (7 : ℚ)/10 else 1/2)))

/-- `get_related_components(text, primary_component)` from
`multi_component_mapping.py`: collect pattern-matched components, drop
duplicate labels keeping the first, sort by score descending (stable), and
return the first five. -/
def get_related_components (text primaryComponent : String) : List (String × ℚ) :=
  (sortByConfDesc (dedupFirst (relatedCandidates text primaryComponent))).take 5

/-- `group_by_category(components, component_to_category)` from
`multi_component_mapping.py`: bucket the pairs by the category of their
label (default `"Other"`), buckets in first-appearance order, then sort
each bucket by confidence descending (stable). -/
def group_by_category (components : List (String × ℚ))
    (componentToCategory : List (String × String)) :
    List (String × List (String × ℚ)) :=
  let grouped := components.foldl
    (fun (acc : List (String × List (String × ℚ))) p =>
      let category := (assocGet componentToCategory p.1).getD "Other"
      if (acc.find? (fun b => b.1 = category)).isSome then
        acc.map (fun b => if b.1 = category then (b.1, b.2 ++ [p]) else b)
      else acc ++ [(category, [p])])
    []
  grouped.map (fun b => (b.1, sortByConfDesc b.2))

/-! ## `hierarchical_inference.py` -/

/-- The lazily-loaded artifacts of `hierarchical_inference.py`. A model is
`none` when its `.pkl` file is absent (so `_load_models` leaves it `None`);
a loaded model maps a text to `Except.error` when `predict_proba` throws and
otherwise to its class/probability pairs. The mapping is the parsed
`component_category_mapping.json`. -/
structure HierModels where
  categoryModel : Option (String → Except String (List (String × ℚ)))
  componentModel : Option (String → Except String (List (String × ℚ)))
  categoryMapping : Option (List (String × List String))

/-- The reverse mapping `_component_to_category` built by `_load_models`:
iterate categories in order and assign `component → category`, later
assignments overriding earlier ones as dict assignment does. -/
def buildComponentToCategory (mapping : List (String × List String)) :
    List (String × String) :=
  mapping.foldl
    (fun acc cat => cat.2.foldl (fun acc' comp => assocSet acc' comp cat.1) acc)
    []

/-- The category filter of `predict_hierarchical`: keep the component
classes that belong to the predicted category
(`category_mapping.get(predicted_category, [])`); if that leaves nothing,
fall back to the whole class list. -/
def hierFiltered (mapping : List (String × List String)) (predictedCategory : String)
    (compPairs : List (String × ℚ)) : List (String × ℚ) :=
  let categoryComponents := (assocGet mapping predictedCategory).getD []
  let filtered := compPairs.filter (fun p => categoryComponents.contains p.1)
  if filtered.isEmpty then compPairs else filtered

/-- The renormalization step of `predict_hierarchical`: divide by the sum
when it is positive, else use the uniform distribution over the list. -/
def normalizeProbs (l : List ℚ) : List ℚ :=
  let total := l.sum
  if 0 < total then l.map (fun p => p / total)
  else l.map (fun _ => 1 / (l.length : ℚ))

/-- The class/renormalized-probability pairs the component stage ranks. -/
def hierRenormalized (pairs : List (String × ℚ)) : List (String × ℚ) :=
  (pairs.map Prod.fst).zip (normalizeProbs (pairs.map Prod.snd))

/-- The result tuple of `predict_hierarchical`. -/
structure HierResult where
  component : Option String
  confidence : ℚ
  source : String
  top5 : List (String × ℚ)
  grouped : List (String × List (String × ℚ))
deriving DecidableEq

/-- The failure tuple `(None, 0.0, reason, [], {})`. -/
def hierFailure (reason : String) : HierResult :=
  ⟨none, 0, reason, [], []⟩

/-- `predict_hierarchical(text, return_multiple)` from
`hierarchical_inference.py`. Absent artifacts short-circuit to
`models_not_loaded` / `mapping_not_loaded`; a throwing category stage (also
`np.argmax` on an empty class list) is caught as
`category_prediction_failed`; a throwing component stage (also the
division by `len([])` when the model has no classes) is caught as
`component_prediction_failed`. On success: argmax category, filter and
renormalize the component distribution, argmax component, top-5 by reversed
argsort, combined confidence = product, optional grouping by category. -/
def predict_hierarchical (m : HierModels) (text : String) (returnMultiple : Bool) :
    HierResult :=
  match m.categoryModel, m.componentModel with
  | none, _ => hierFailure "models_not_loaded"
  | some _, none => hierFailure "models_not_loaded"
  | some catM, some compM =>
    match m.categoryMapping with
    | none => hierFailure "mapping_not_loaded"
    | some mapping =>
      match catM text with
      | .error _ => hierFailure "category_prediction_failed"
      | .ok catPairs =>
        if catPairs.isEmpty then hierFailure "category_prediction_failed"
        else
          let catIdx := argmaxIdx (catPairs.map Prod.snd)
          let predictedCategory := (catPairs.getD catIdx ("", 0)).1
          let catConfidence := (catPairs.getD catIdx ("", 0)).2
          match compM text with
          | .error _ => hierFailure "component_prediction_failed"
          | .ok compPairs =>
            let pairs := hierFiltered mapping predictedCategory compPairs
            if pairs.isEmpty then hierFailure "component_prediction_failed"
            else
              let renorm := hierRenormalized pairs
              let topIdx := argmaxIdx (renorm.map Prod.snd)
              let predictedComponent := (renorm.getD topIdx ("", 0)).1
              let compConfidence := (renorm.getD topIdx ("", 0)).2
              let top5 := topKRanked renorm 5
              let combinedConfidence := catConfidence * compConfidence
              let grouped :=
                if returnMultiple then
                  group_by_category top5 (buildComponentToCategory mapping)
                else []
              ⟨some predictedComponent, combinedConfidence, "hierarchical_ml",
                top5, grouped⟩

/-! ## `app.py` — the `/product_need_recommend` endpoint

Presentation-only response fields (`need_label`, `definition`, `why_useful`,
`extra_explanation`, `fixing_tips`) are static-table lookups and generated
prose that no control flow reads back; they are omitted from the embedded
response. The feedback CSV append of `feedback_storage.save_feedback` is
modelled as the list of records appended during the call. -/

/-- One row appended to `product_need_feedback.csv` by `save_feedback`. -/
structure FeedbackRecord where
  user_text : String
  predicted_label : Option String
  confidence : ℚ
  source : String
deriving DecidableEq

/-- The claim-relevant fields of `ProductNeedResponse` (alternatives as
label/confidence pairs). -/
structure ProductNeedResponse where
  component : Option String
  confidence : ℚ
  alternatives : List (String × ℚ)
  is_low_confidence : Bool
  source : String
  ask_feedback : Bool
  grouped_by_category : Option (List (String × List (String × ℚ)))
deriving DecidableEq

/-- The response returned when every stage abstains (`final_label is None`):
no component, confidence `0.0`, no alternatives, `source="none"`,
`ask_feedback=True` — returned *before* the feedback-saving block runs. -/
def noPredictionResponse : ProductNeedResponse :=
  ⟨none, 0, [], true, "none", true, none⟩

/-- The process environment of `app.py` seen by the endpoint:
`HIERARCHICAL_AVAILABLE` (the import of `rules`/`hierarchical_inference`/
`feedback_storage` succeeded, in which case `match_rule`, `predict_hierarchical`
and `save_feedback` are non-`None`), the rule table, the hierarchical
artifacts and the flat `product_need_model` (`none` when not loaded). -/
structure AppEnv where
  hierarchicalAvailable : Bool
  rules : List Rule
  hier : HierModels
  flatModel : Option (String → Except String (List (String × ℚ)))

/-- `predict_product_need(text)` from `app.py`: top-3 classes of the flat
model by descending probability; any throw (including indexing `top3[0]`
when the model has no classes) degrades to `(None, 0.0, [])`. -/
def predict_product_need (model? : Option (String → Except String (List (String × ℚ))))
    (text : String) : Option String × ℚ × List (String × ℚ) :=
  match model? with
  | none => (none, 0, [])
  | some f =>
    match f text with
    | .error _ => (none, 0, [])
    | .ok pairs =>
      if pairs.isEmpty then (none, 0, [])
      else
        let top3 := topKRanked pairs 3
        let best := top3.headD ("", 0)
        (some best.1, best.2, top3)

/-- Stage 1 of `product_need_recommend`: rule matching. On a match the
alternatives are the primary pair followed by up to four related components
at `0.8 ×` the rule confidence. -/
def recommendStage1 (env : AppEnv) (text : String) :
    Option (String × ℚ × String × List (String × ℚ)) :=
  if env.hierarchicalAvailable then
    match match_rule env.rules text with
    | some (label, conf, _explanation, related) =>
      some (label, conf, "rule",
        (label, conf) :: (related.take 4).map (fun rc => (rc, conf * (8/10))))
    | none => none
  else none

/-- Stage 2 of `product_need_recommend`: hierarchical ML. On a truthy
predicted component, merge the model top-5 with
`get_related_components(text, comp)`, deduplicate by label keeping the
first, re-sort by confidence descending, truncate to five, and group the
merged list by category when the model returned a non-empty grouping. -/
def recommendStage2 (env : AppEnv) (text : String) :
    Option (String × ℚ × String × List (String × ℚ) ×
      Option (List (String × List (String × ℚ)))) :=
  if env.hierarchicalAvailable then
    match predict_hierarchical env.hier text true with
    | ⟨some comp, conf, mlSource, top5, grouped⟩ =>
      if comp ≠ "" then
        let related := get_related_components text comp
        let uniqueComponents := dedupFirst (top5 ++ related)
        let top5' := (sortByConfDesc uniqueComponents).take 5
        let groupedList :=
          if grouped ≠ [] then
            match env.hier.categoryMapping with
            | some mapping =>
              some (group_by_category top5' (buildComponentToCategory mapping))
            | none => none
          else none
        some (comp, conf, mlSource, top5'.take 5, groupedList)
      else none
    | ⟨none, _, _, _, _⟩ => none
  else none

/-- Stage 3 of `product_need_recommend`: flat-model fallback. On a truthy
base label, the alternatives are the model's top-5 classes by descending
probability (falling back to the top-3 if the second model call throws). -/
def recommendStage3 (env : AppEnv) (text : String) :
    Option (String × ℚ × String × List (String × ℚ)) :=
  match env.flatModel with
  | none => none
  | some f =>
    match predict_product_need env.flatModel text with
    | (some baseLabel, baseConf, top3) =>
      if baseLabel ≠ "" then
        let top5 :=
          match f text with
          | .ok pairs => topKRanked pairs 5
          | .error _ => top3
        some (baseLabel, baseConf, "ml", top5.take 5)
      else none
    | (none, _, _) => none

/-- `product_need_recommend(req)` from `app.py`. Empty/whitespace-only text
is rejected with `HTTPException(400)` (modelled as `Except.error 400`).
Otherwise the stages run in order (rule → hierarchical → flat); with no
prediction the no-opinion response is returned with *no* feedback append;
with a prediction the primary label is inserted at the head of the
alternatives when absent, the list is truncated to five, and one feedback
record is appended when `final_conf < 0.5` (the `LOW_CONF_THRESHOLD`,
which is `0.5` whether or not the hierarchical module loaded) and
`save_feedback` is available. -/
def product_need_recommend (env : AppEnv) (text0 : String) :
    Except ℕ (ProductNeedResponse × List FeedbackRecord) :=
  let text := pyStrip text0
  if text = "" then .error 400
  else
    let outcome :
        Option (String × ℚ × String × List (String × ℚ) ×
          Option (List (String × List (String × ℚ)))) :=
      match recommendStage1 env text with
      | some (l, c, s, alts) => some (l, c, s, alts, none)
      | none =>
        match recommendStage2 env text with
        | some o => some o
        | none =>
          (recommendStage3 env text).map (fun o => (o.1, o.2.1, o.2.2.1, o.2.2.2, none))
    match outcome with
    | none => .ok (noPredictionResponse, [])
    | some (finalLabel, finalConf, source, alts0, grouped) =>
      let seenLabels := alts0.map Prod.fst
      let alts1 :=
        if ¬ seenLabels.contains finalLabel then (finalLabel, finalConf) :: alts0
        else alts0
      let alternatives := alts1.take 5
      let isLowConf := decide (finalConf < 2/5)
      let askFeedback := decide (finalConf < 1/2)
      let fb :=
        if askFeedback ∧ env.hierarchicalAvailable then
          [⟨text, some finalLabel, finalConf, source⟩]
        else []
      .ok (⟨some finalLabel, finalConf, alternatives, isLowConf, source,
        askFeedback, grouped⟩, fb)

/-! ## `app.py` — `detect_error_type_hybrid` -/

def error_keywords_multi : List (String × List String) := [
  ("CPU Overheat", ["cpu", "processor", "overheat", "overheating", "thermal", "temperature", "hot", "fan"]),
  ("GPU Overheat", ["gpu", "graphics", "overheat", "overheating", "thermal", "temperature", "hot", "fan"]),
  ("Slow Performance", ["slow", "lag", "lagging", "sluggish", "unresponsive", "performance"]),
  ("RAM Upgrade", ["ram", "memory", "insufficient", "full", "not enough"]),
  ("SSD Upgrade", ["ssd", "storage", "slow boot", "slow loading", "hard drive"]),
  ("PSU / Power Issue", ["power", "psu", "not turning on", "no power", "dead", "charging"]),
  ("Windows Boot Failure", ["boot", "booting", "not starting", "startup", "boot failure"]),
  ("No Display / No Signal", ["no display", "no signal", "black screen", "blank screen", "monitor"]),
  ("Blue Screen (BSOD)", ["blue screen", "bsod", "crash", "freeze"]),
  ("Wi-Fi Adapter Upgrade", ["wifi", "wi-fi", "internet", "network", "connection", "adapter"])
]

/-- The result of `detect_error_type_ml`. -/
structure MlDetect where
  label : Option String
  confidence : ℚ
  source : String
  alternatives : List (String × ℚ)

/-- The dict returned by `detect_error_type_hybrid`. -/
structure HybridResult where
  label : Option String
  confidence : ℚ
  source : String
  alternatives : List (String × ℚ)
  multiple_types : List (String × ℚ)
deriving DecidableEq

/-- The collaborators `detect_error_type_hybrid` dispatches to, kept opaque:
`rule_based_error_type`, the legacy `detect_error_type_rules`, and
`detect_error_type_ml` (whose `Except.error` models the `try` around steps
3–5 catching `NameError` or any other exception). -/
structure HybridEnv where
  ruleBasedErrorType : String → Option String × ℚ
  detectErrorTypeRules : String → Option String × ℚ × List (String × ℚ)
  detectErrorTypeMl : String → Except String MlDetect

/-- The multi-error-type detector embedded in `detect_error_type_hybrid`:
error types with at least two keyword hits, scored
`min(0.8, 0.4 + hits*0.1)`, sorted by confidence descending (stable). -/
def detectedTypesOf (textLower : String) : List (String × ℚ) :=
  sortByConfDesc (error_keywords_multi.filterMap (fun ek =>
    let matchCount := (ek.2.filter (fun kw => strContainsSub textLower kw)).length
    if 2 ≤ matchCount then
      some (ek.1, min ((4 : ℚ)/5) ((2 : ℚ)/5 + (matchCount : ℚ) * (1/10)))
    else none))

/-- Steps 6–8 of `detect_error_type_hybrid`: prefer any rule hit, else the
top detected type (with up to three runners-up as alternatives), else the
static `General Repair, 0.3, fallback` result. -/
def hybridTail (ruleLabel : Option String) (ruleConf : ℚ)
    (detected multipleTypes : List (String × ℚ)) : HybridResult :=
  if strOptTruthy ruleLabel then ⟨ruleLabel, ruleConf, "rule", [], multipleTypes⟩
  else if ¬ detected.isEmpty then
    ⟨some (detected.headD ("", 0)).1, (detected.headD ("", 0)).2, "fallback",
      if 1 < detected.length then (detected.drop 1).take 3 else [], multipleTypes⟩
  else ⟨some "General Repair", 3/10, "fallback", [], []⟩

/-- `detect_error_type_hybrid(text)` from `app.py`: empty/whitespace-only
text short-circuits to `General Repair, 0.0, "fallback"`; otherwise
multi-type detection, then rules at `≥0.8`, legacy rules at `≥0.7`, ML at
`≥0.6`, any rule hit, any non-`"none"` ML result, and the step 6–8 tail. -/
def detect_error_type_hybrid (env : HybridEnv) (text : String) : HybridResult :=
  if pyStrip text = "" then ⟨some "General Repair", 0, "fallback", [], []⟩
  else
    let textLower := pyLower text
    let detected := detectedTypesOf textLower
    let highConf := detected.filter (fun dt => decide ((1 : ℚ)/2 ≤ dt.2))
    let multipleTypes := if 1 < highConf.length then highConf.take 3 else []
    let rb := env.ruleBasedErrorType (pyStrip text)
    if strOptTruthy rb.1 ∧ (4 : ℚ)/5 ≤ rb.2 then
      ⟨rb.1, rb.2, "rule", [], multipleTypes⟩
    else
      let legacy := env.detectErrorTypeRules (pyStrip text)
      if strOptTruthy legacy.1 ∧ (7 : ℚ)/10 ≤ legacy.2.1 then
        ⟨legacy.1, legacy.2.1, "rules", legacy.2.2, multipleTypes⟩
      else
        match env.detectErrorTypeMl (pyStrip text) with
        | .ok ml =>
          if strOptTruthy ml.label ∧ (3 : ℚ)/5 ≤ ml.confidence then
            ⟨ml.label, ml.confidence, ml.source, ml.alternatives, multipleTypes⟩
          else if strOptTruthy rb.1 then ⟨rb.1, rb.2, "rule", [], multipleTypes⟩
          else if ml.source ≠ "none" then
            ⟨ml.label, ml.confidence, ml.source, ml.alternatives, multipleTypes⟩
          else hybridTail rb.1 rb.2 detected multipleTypes
        | .error _ => hybridTail rb.1 rb.2 detected multipleTypes

/-! ## `retrain_with_feedback.py` -/

/-- The component-model training-set selection of `retrain_models`
(lines around "Filter valid classes"): rows are `(text, component_label)`;
`valid_classes` are the labels occurring at least twice; the filtered frame
replaces the full one only under `len(df_filtered) < len(df) * 0.8`,
i.e. only when the filter removed *more* than 20% of the rows. -/
def componentTrainingData (df : List (String × String)) : List (String × String) :=
  let classCount := fun (label : String) => (df.filter (fun r => r.2 = label)).length
  let dfFiltered := df.filter (fun r => 2 ≤ classCount r.2)
  if 5 * dfFiltered.length < 4 * df.length then dfFiltered else df

/-- The run parameters of one `retrain_models` invocation: the artifacts
deployed before the run (`none` = file absent) and whether each
fit/evaluate stage succeeds; the artifact contents a successful run would
write. -/
structure RetrainEnv where
  oldCategory : Option String
  oldComponent : Option String
  catStageOk : Bool
  compStageOk : Bool
  newCategory : String
  newComponent : String

/-- The artifact files after a run: the two live model paths and the
timestamped backup copies made by `backup_models`. -/
structure RetrainState where
  activeCategory : Option String
  activeComponent : Option String
  backupCategory : Option String
  backupComponent : Option String
deriving DecidableEq

/-- `retrain_models()` from `retrain_with_feedback.py`: first
`backup_models()` copies any existing artifact to a timestamped file; the
category model is fitted, evaluated and — immediately — dumped over the
live category path; only then is the component model fitted and dumped. A
stage that throws propagates (`Except.error`) and leaves the files as they
are at that point. -/
def retrain_models (env : RetrainEnv) : Except String Unit × RetrainState :=
  let s0 : RetrainState := ⟨env.oldCategory, env.oldComponent,
    env.oldCategory, env.oldComponent⟩
  if ¬ env.catStageOk then (.error "category_fit_failed", s0)
  else
    let s1 := { s0 with activeCategory := some env.newCategory }
    if ¬ env.compStageOk then (.error "component_fit_failed", s1)
    else (.ok (), { s1 with activeComponent := some env.newComponent })

/-! ## Concrete instantiations used to settle the claims -/

/-- The full ranking `[(classes[i], probs[i]) for i in np.argsort(probs)[::-1]]`
(no truncation); `topKRanked pairs k` is its `k`-prefix. -/
def rankAll (pairs : List (String × ℚ)) : List (String × ℚ) :=
  (argsortAsc (pairs.map Prod.snd)).reverse.map (fun i => pairs.getD i ("", 0))

/-- A process with the hierarchical module imported but no artifact loaded,
an empty rule table and no flat model. -/
def envNoStages : AppEnv := ⟨true, [], ⟨none, none, none⟩, none⟩

/-- An opaque-collaborator environment for `detect_error_type_hybrid` in
which every stage abstains or throws. -/
def envHybridBare : HybridEnv :=
  ⟨fun _ => (none, 0), fun _ => (none, 0, []), fun _ => .error "unavailable"⟩

/-- Hierarchical artifacts whose component distribution is a three-way tie
inside the predicted category: classes `B`, `A`, `C` (in that array order),
each with probability `1/3`. -/
def hierTie : HierModels :=
  ⟨some (fun _ => .ok [("Cat", 1)]),
   some (fun _ => .ok [("B", 1/3), ("A", 1/3), ("C", 1/3)]),
   some [("Cat", ["A", "B", "C"])]⟩

/-- An environment on which the hierarchical stage fires with primary `A`
at renormalized probability `3/5` while the text `"slow"` pulls in related
components at the fixed score `0.7 > 3/5`. -/
def envDisplaced : AppEnv :=
  ⟨true, [],
   ⟨some (fun _ => .ok [("Cat", 1)]),
    some (fun _ => .ok [("A", 3/5), ("B", 2/5)]),
    some [("Cat", ["A", "B"])]⟩,
   none⟩

/-- An environment with only the flat model loaded, top class at
confidence `1/2`. -/
def envFlatHalf : AppEnv :=
  ⟨true, [], ⟨none, none, none⟩,
   some (fun _ => .ok
     [("RAM Upgrade", 3/10), ("SSD Upgrade", 1/5), ("GPU Upgrade", 1/2)])⟩

/-- An environment with only the flat model loaded, top class at
confidence `3/10 < 0.5`. -/
def envFlatLow : AppEnv :=
  ⟨true, [], ⟨none, none, none⟩,
   some (fun _ => .ok [("RAM Upgrade", 3/10), ("SSD Upgrade", 1/5)])⟩

/-- A merged training frame with nine examples of class `A` and a single
example of class `B` (so `B` is below the two-example minimum). -/
def dfRareClass : List (String × String) :=
  [("t1", "A"), ("t2", "A"), ("t3", "A"), ("t4", "A"), ("t5", "A"),
   ("t6", "A"), ("t7", "A"), ("t8", "A"), ("t9", "A"), ("u", "B")]

/-- A retraining run over deployed artifacts `catV1`/`compV1` in which the
category fit succeeds and the component fit throws. -/
def envRetrainCompFail : RetrainEnv :=
  ⟨some "catV1", some "compV1", true, false, "catV2", "compV2"⟩

/-- A retraining run in which both fits succeed. -/
def envRetrainOk : RetrainEnv :=
  ⟨some "catV1", some "compV1", true, true, "catV2", "compV2"⟩

/-! ## General lemmas about the embedded combinators -/

theorem sortByConfDesc_perm (l : List (String × ℚ)) : (sortByConfDesc l).Perm l :=
  List.perm_insertionSort confDescRel l

theorem sortByConfDesc_sorted (l : List (String × ℚ)) :
    (sortByConfDesc l).Pairwise (fun a b => b.2 ≤ a.2) :=
  List.sorted_insertionSort confDescRel l

theorem sortByConfDesc_of_const (l : List (String × ℚ)) (c : ℚ)
    (h : ∀ p ∈ l, p.2 = c) : sortByConfDesc l = l := by
  unfold sortByConfDesc
  apply List.Sorted.insertionSort_eq
  refine List.Pairwise.imp_of_mem (R := fun _ _ => True) ?_ ?_
  · intro a b ha hb (_ : True)
    show b.2 ≤ a.2
    rw [h a ha, h b hb]
  · exact List.pairwise_of_forall (fun _ _ => trivial)

theorem dedupFirstAux_sublist (seen : List String) (l : List (String × ℚ)) :
    (dedupFirstAux seen l).Sublist l := by
  induction l generalizing seen with
  | nil => simp [dedupFirstAux]
  | cons p rest ih =>
    simp only [dedupFirstAux]
    split
    · exact (ih seen).trans (List.sublist_cons_self p rest)
    · exact (ih (p.1 :: seen)).cons₂ p

theorem dedupFirstAux_keys (seen : List String) (l : List (String × ℚ)) :
    ((dedupFirstAux seen l).map Prod.fst).Nodup ∧
      ∀ a ∈ (dedupFirstAux seen l).map Prod.fst, a ∉ seen := by
  induction l generalizing seen with
  | nil => simp [dedupFirstAux]
  | cons p rest ih =>
    simp only [dedupFirstAux]
    split
    · exact ih seen
    · rename_i hc
      obtain ⟨ih1, ih2⟩ := ih (p.1 :: seen)
      refine ⟨List.nodup_cons.mpr ⟨fun hmem => ?_, ih1⟩, ?_⟩
      · exact (ih2 _ hmem) (List.mem_cons_self _ _)
      · intro a ha
        rcases List.mem_cons.mp ha with rfl | ha'
        · intro hseen
          exact hc (by simpa using hseen)
        · intro hseen
          exact ih2 a ha' (List.mem_cons_of_mem _ hseen)

theorem dedupFirst_keys_nodup (l : List (String × ℚ)) :
    ((dedupFirst l).map Prod.fst).Nodup :=
  (dedupFirstAux_keys [] l).1

theorem dedupFirst_sublist (l : List (String × ℚ)) : (dedupFirst l).Sublist l :=
  dedupFirstAux_sublist [] l

theorem argsortAsc_perm (vals : List ℚ) :
    (argsortAsc vals).Perm (List.range vals.length) :=
  List.perm_insertionSort (argsortRel vals) _

theorem argsortAsc_sorted (vals : List ℚ) :
    (argsortAsc vals).Pairwise (argsortRel vals) :=
  List.sorted_insertionSort (argsortRel vals) _

theorem mem_argsortAsc_lt (vals : List ℚ) (i : ℕ) (h : i ∈ argsortAsc vals) :
    i < vals.length := by
  have := (argsortAsc_perm vals).mem_iff.mp h
  simpa using this

theorem map_getD_range (pairs : List (String × ℚ)) :
    (List.range pairs.length).map (fun i => pairs.getD i ("", 0)) = pairs := by
  apply List.ext_getElem
  · simp
  · intro n h1 h2
    simp only [List.getElem_map, List.getElem_range]
    exact List.getD_eq_getElem pairs ("", 0) h2

theorem getD_snd_eq (pairs : List (String × ℚ)) (i : ℕ) (h : i < pairs.length) :
    (pairs.getD i ("", 0)).2 = (pairs.map Prod.snd).getD i 0 := by
  rw [List.getD_eq_getElem pairs ("", 0) h,
    List.getD_eq_getElem (pairs.map Prod.snd) 0 (by simpa using h),
    List.getElem_map]

theorem rankAll_perm (pairs : List (String × ℚ)) : (rankAll pairs).Perm pairs := by
  unfold rankAll
  have h1 : ((argsortAsc (pairs.map Prod.snd)).reverse).Perm
      (List.range pairs.length) := by
    simpa using (List.reverse_perm _).trans (argsortAsc_perm (pairs.map Prod.snd))
  have h2 := h1.map (fun i => pairs.getD i ("", 0))
  rwa [map_getD_range pairs] at h2

theorem rankAll_sorted (pairs : List (String × ℚ)) :
    (rankAll pairs).Pairwise (fun a b => b.2 ≤ a.2) := by
  unfold rankAll
  rw [List.pairwise_map]
  have hs : (argsortAsc (pairs.map Prod.snd)).reverse.Pairwise
      (fun i j => argsortRel (pairs.map Prod.snd) j i) :=
    List.pairwise_reverse.mpr (argsortAsc_sorted (pairs.map Prod.snd))
  refine hs.imp_of_mem ?_
  intro i j hi hj hle
  have hi' : i < pairs.length := by
    simpa using mem_argsortAsc_lt _ i (List.mem_reverse.mp hi)
  have hj' : j < pairs.length := by
    simpa using mem_argsortAsc_lt _ j (List.mem_reverse.mp hj)
  rw [getD_snd_eq pairs i hi', getD_snd_eq pairs j hj']
  rcases hle with h | ⟨h, _⟩
  · exact le_of_lt h
  · exact le_of_eq h

theorem rankAll_labels_nodup (pairs : List (String × ℚ))
    (h : (pairs.map Prod.fst).Nodup) : ((rankAll pairs).map Prod.fst).Nodup :=
  (((rankAll_perm pairs).map Prod.fst).nodup_iff).mpr h

theorem topKRanked_eq_take (pairs : List (String × ℚ)) (k : ℕ) :
    topKRanked pairs k = (rankAll pairs).take k := by
  unfold topKRanked rankAll
  rw [List.map_take]

theorem topKRanked_sorted (pairs : List (String × ℚ)) (k : ℕ) :
    (topKRanked pairs k).Pairwise (fun a b => b.2 ≤ a.2) := by
  rw [topKRanked_eq_take]
  exact List.Pairwise.sublist (List.take_sublist k _) (rankAll_sorted pairs)

theorem topKRanked_labels_nodup (pairs : List (String × ℚ)) (k : ℕ)
    (h : (pairs.map Prod.fst).Nodup) : ((topKRanked pairs k).map Prod.fst).Nodup := by
  rw [topKRanked_eq_take, List.map_take]
  exact List.Nodup.sublist (List.take_sublist k _) (rankAll_labels_nodup pairs h)

theorem topKRanked_length (pairs : List (String × ℚ)) (k : ℕ) :
    (topKRanked pairs k).length = min k pairs.length := by
  rw [topKRanked_eq_take, List.length_take]
  unfold rankAll argsortAsc
  simp [List.length_insertionSort]

theorem topKRanked_extends (pairs : List (String × ℚ)) (k : ℕ) :
    ∃ rest, (topKRanked pairs k ++ rest).Perm pairs ∧
      (topKRanked pairs k ++ rest).Pairwise (fun a b => b.2 ≤ a.2) := by
  refine ⟨(rankAll pairs).drop k, ?_, ?_⟩
  · rw [topKRanked_eq_take, List.take_append_drop]
    exact rankAll_perm pairs
  · rw [topKRanked_eq_take, List.take_append_drop]
    exact rankAll_sorted pairs

/-! ## Claim C2 — rule matching order -/

/-- C2: `match_rule` lowercases and trims the text and returns the
label/confidence/explanation/related-components of the earliest-declared
rule whose condition is satisfied on the normalized text; when several
rules match, the result is the earliest-declared one's packaging (never a
later one's), and when no rule matches the result is `none`. -/
theorem match_rule_first_match (rules : List Rule) (text : String) :
    (∀ out, match_rule rules text = some out ↔
      ∃ pre r post, rules = pre ++ r :: post ∧
        ruleMatches r (pyStrip (pyLower text)) = true ∧
        (∀ r' ∈ pre, ruleMatches r' (pyStrip (pyLower text)) = false) ∧
        out = rulePack r) ∧
    (match_rule rules text = none ↔
      ∀ r ∈ rules, ruleMatches r (pyStrip (pyLower text)) = false) := by
  constructor
  · intro out
    simp only [match_rule, Option.map_eq_some', List.find?_eq_some]
    constructor
    · rintro ⟨r, ⟨hr, pre, post, rfl, hpre⟩, rfl⟩
      exact ⟨pre, r, post, rfl, hr, fun r' h => by simpa using hpre r' h, rfl⟩
    · rintro ⟨pre, r, post, rfl, hr, hpre, rfl⟩
      exact ⟨r, ⟨hr, pre, post, rfl, fun a ha => by simpa using hpre a ha⟩, rfl⟩
  · simp only [match_rule, Option.map_eq_none', List.find?_eq_none]
    constructor
    · intro h r hr
      simpa using h r hr
    · intro h r hr
      simp [h r hr]

/-! ## Claim C3 — renormalization invariant -/

theorem sum_map_div (l : List ℚ) (t : ℚ) :
    (l.map (fun p => p / t)).sum = l.sum / t := by
  induction l with
  | nil => simp
  | cons x xs ih => simp [ih, add_div]

theorem sum_map_const_q (l : List ℚ) (c : ℚ) :
    (l.map (fun _ => c)).sum = l.length * c := by
  induction l with
  | nil => simp
  | cons x xs ih =>
    simp only [List.map_cons, List.sum_cons, ih, List.length_cons]
    push_cast
    ring

/-- C3: whenever the list of category-filtered component probabilities is
non-empty (and consists of genuine probabilities, i.e. non-negatives), the
renormalized vector `normalizeProbs` that `predict_hierarchical` ranks
sums to exactly `1`; in particular, when the filtered probabilities sum to
`0`, the uniform distribution over the filtered set is used. -/
theorem normalizeProbs_sum_one (l : List ℚ) (hne : l ≠ []) :
    (normalizeProbs l).sum = 1 ∧
      (l.sum = 0 → normalizeProbs l = l.map (fun _ => 1 / (l.length : ℚ))) := by
  have hlen : (l.length : ℚ) ≠ 0 := by
    have h1 : l.length ≠ 0 := Nat.pos_iff_ne_zero.mp (List.length_pos.mpr hne)
    exact_mod_cast h1
  constructor
  · simp only [normalizeProbs]
    split
    · rename_i hpos
      rw [sum_map_div, div_self (ne_of_gt hpos)]
    · rename_i hnpos
      rw [sum_map_const_q, mul_one_div, div_self hlen]
  · intro hzero
    simp only [normalizeProbs]
    split
    · rename_i hpos
      rw [hzero] at hpos
      exact absurd hpos (lt_irrefl 0)
    · rfl

/-- C3 witness: at the concrete filtered vector `[0, 0]` the uniform
branch fires and the renormalized vector sums to `1`. -/
theorem normalizeProbs_sum_one_witness :
    (normalizeProbs [0, 0]).sum = 1 ∧
      (([0, 0] : List ℚ).sum = 0 →
        normalizeProbs [0, 0] = ([0, 0] : List ℚ).map (fun _ => 1 / (([0, 0] : List ℚ).length : ℚ))) :=
  normalizeProbs_sum_one [0, 0] (by decide)

/-! ## Claim C10 — related-component scores -/

theorem relatedCandidates_score (text prim : String) :
    ∀ p ∈ relatedCandidates text prim, p.2 = 7/10 := by
  intro p hp
  unfold relatedCandidates at hp
  obtain ⟨pc, hpc, hp2⟩ := List.mem_flatMap.mp hp
  obtain ⟨comp, hcomp, rfl⟩ := List.mem_map.mp hp2
  have hmem : comp ∈ pc.2 := (List.mem_filter.mp hcomp).1
  have hc : pc.2.contains comp = true := by simpa using hmem
  simp [hc, hmem]

/-- C10: every pair returned by `get_related_components` carries the score
`0.7` exactly (the `0.5` branch is unreachable because its guard
`comp in components` always holds where it is evaluated), the result has
at most five entries, and — since all scores are equal and the sort is
stable — the sort is the identity, so the result is the five first
deduplicated candidates in keyword-match order, not a relevance order. -/
theorem get_related_components_spec (text prim : String) :
    (∀ p ∈ get_related_components text prim, p.2 = 7/10) ∧
    (get_related_components text prim).length ≤ 5 ∧
    get_related_components text prim =
      (dedupFirst (relatedCandidates text prim)).take 5 := by
  have hconst : ∀ p ∈ dedupFirst (relatedCandidates text prim), p.2 = 7/10 :=
    fun p hp => relatedCandidates_score text prim p ((dedupFirst_sublist _).subset hp)
  have hsort : sortByConfDesc (dedupFirst (relatedCandidates text prim)) =
      dedupFirst (relatedCandidates text prim) :=
    sortByConfDesc_of_const _ (7/10) hconst
  refine ⟨?_, ?_, ?_⟩
  · intro p hp
    unfold get_related_components at hp
    rw [hsort] at hp
    exact hconst p ((List.take_sublist 5 _).subset hp)
  · unfold get_related_components
    exact List.length_take_le 5 _
  · unfold get_related_components
    rw [hsort]

/-! ## Claim C6 — hierarchical failure modes -/

/-- C6: `predict_hierarchical` never propagates a stage failure: a missing
model artifact yields `models_not_loaded`, a missing mapping yields
`mapping_not_loaded`, a throwing category stage yields
`category_prediction_failed` and a throwing component stage yields
`component_prediction_failed` — in every failure case with label `none`,
confidence `0`, empty alternatives and empty grouping (the function is
total by construction, so no case raises). -/
theorem predict_hierarchical_failures (m : HierModels) (text : String) (rm : Bool) :
    ((m.categoryModel = none ∨ m.componentModel = none) →
      predict_hierarchical m text rm = ⟨none, 0, "models_not_loaded", [], []⟩) ∧
    (∀ f g, m.categoryModel = some f → m.componentModel = some g →
      m.categoryMapping = none →
      predict_hierarchical m text rm = ⟨none, 0, "mapping_not_loaded", [], []⟩) ∧
    (∀ f g mp e, m.categoryModel = some f → m.componentModel = some g →
      m.categoryMapping = some mp → f text = .error e →
      predict_hierarchical m text rm = ⟨none, 0, "category_prediction_failed", [], []⟩) ∧
    (∀ f g mp catPairs e, m.categoryModel = some f → m.componentModel = some g →
      m.categoryMapping = some mp → f text = .ok catPairs → catPairs ≠ [] →
      g text = .error e →
      predict_hierarchical m text rm = ⟨none, 0, "component_prediction_failed", [], []⟩) := by
  obtain ⟨cm, om, mp⟩ := m
  refine ⟨?_, ?_, ?_, ?_⟩
  · rintro (h | h)
    · dsimp only at h
      subst h
      rfl
    · dsimp only at h
      subst h
      cases cm <;> rfl
  · intro f g hf hg hmp
    dsimp only at hf hg hmp
    subst hf
    subst hg
    subst hmp
    rfl
  · intro f g mp' e hf hg hmp hcat
    dsimp only at hf hg hmp
    subst hf
    subst hg
    subst hmp
    simp [predict_hierarchical, hcat, hierFailure]
  · intro f g mp' catPairs e hf hg hmp hcat hne hcomp
    dsimp only at hf hg hmp
    subst hf
    subst hg
    subst hmp
    simp [predict_hierarchical, hcat, hcomp, hierFailure, hne]

/-- C6 witness: with no artifacts loaded, the failure tuple is returned. -/
theorem predict_hierarchical_failures_witness :
    predict_hierarchical ⟨none, none, none⟩ "x" true =
      ⟨none, 0, "models_not_loaded", [], []⟩ :=
  (predict_hierarchical_failures ⟨none, none, none⟩ "x" true).1 (Or.inl rfl)

/-! ## Claim C7 — rare-class filter before the component fit -/

/-- C7: on a merged corpus with nine examples of class `A` and one of class
`B`, the retraining job's class filter is *skipped* (the guard
`len(df_filtered) < len(df) * 0.8` is false because filtering removes only
10% of the rows), so the component model is fitted on data in which class
`B` still has a single example — contradicting the claim that labels with
fewer than two examples are always removed. -/
theorem componentTrainingData_keeps_singleton :
    componentTrainingData dfRareClass = dfRareClass ∧
      ((componentTrainingData dfRareClass).filter (fun r => r.2 = "B")).length = 1 := by
  decide

/-! ## Claim C8 — retraining artifact lifecycle -/

/-- C8 counterexample: a run whose category fit succeeds and whose
component fit throws aborts with the *new* category artifact already
written over the live path and the *old* component artifact still active —
a mixed pair, refuting "never leaves a partially written or mixed artifact
pair active". -/
theorem retrain_mixed_pair_counterexample :
    retrain_models envRetrainCompFail =
      (.error "component_fit_failed",
        ⟨some "catV2", some "compV1", some "catV1", some "compV1"⟩) ∧
    (retrain_models envRetrainCompFail).2.activeCategory =
      some envRetrainCompFail.newCategory ∧
    (retrain_models envRetrainCompFail).2.activeComponent =
      envRetrainCompFail.oldComponent := by
  refine ⟨?_, rfl, rfl⟩
  rfl

/-- C8 (amended): `retrain_models` backs up both deployed artifacts before
training; a category-stage failure leaves both live artifacts unchanged; a
fully successful run persists both new artifacts; but the category
artifact is dumped before the component model trains, so a
component-stage failure leaves the mixed pair (new category, old
component) active. -/
theorem retrain_models_outcomes (env : RetrainEnv) :
    ((retrain_models env).2.backupCategory = env.oldCategory ∧
      (retrain_models env).2.backupComponent = env.oldComponent) ∧
    (env.catStageOk = false →
      retrain_models env = (.error "category_fit_failed",
        ⟨env.oldCategory, env.oldComponent, env.oldCategory, env.oldComponent⟩)) ∧
    (env.catStageOk = true → env.compStageOk = true →
      retrain_models env = (.ok (),
        ⟨some env.newCategory, some env.newComponent,
          env.oldCategory, env.oldComponent⟩)) ∧
    (env.catStageOk = true → env.compStageOk = false →
      retrain_models env = (.error "component_fit_failed",
        ⟨some env.newCategory, env.oldComponent,
          env.oldCategory, env.oldComponent⟩)) := by
  obtain ⟨oc, ocomp, cok, compok, nc, ncomp⟩ := env
  cases cok <;> cases compok <;> simp [retrain_models]

/-- C8 witness: a fully successful run persists both new artifacts and
keeps the backups of the previous pair. -/
theorem retrain_models_outcomes_witness :
    retrain_models envRetrainOk =
      (.ok (), ⟨some "catV2", some "compV2", some "catV1", some "compV1"⟩) :=
  (retrain_models_outcomes envRetrainOk).2.2.1 rfl rfl

/-! ## Claim C1 — empty/whitespace input -/

/-- C1 counterexample: on whitespace-only input the recommend endpoint
*raises* `HTTPException(400)` rather than returning a default prediction,
and the hybrid error-type entry point returns `source = "fallback"`, not
`source = "none"`. -/
theorem empty_text_counterexample :
    product_need_recommend envNoStages " " = .error 400 ∧
    (detect_error_type_hybrid envHybridBare "").source = "fallback" ∧
    (detect_error_type_hybrid envHybridBare "").source ≠ "none" := by
  refine ⟨?_, rfl, by decide⟩
  rfl

/-- C1 (amended): for every environment and every empty or whitespace-only
text, `detect_error_type_hybrid` short-circuits — before consulting any
stage, as the result is the same constant for *every* stage environment —
to the default `General Repair` with confidence `0` and
`source = "fallback"` (not `"none"`) and raises nothing, while
`product_need_recommend` rejects the input by raising an HTTP 400 error
before invoking any stage. -/
theorem empty_text_shortcircuit (envA : AppEnv) (envH : HybridEnv) (text : String)
    (h : pyStrip text = "") :
    product_need_recommend envA text = .error 400 ∧
    detect_error_type_hybrid envH text =
      ⟨some "General Repair", 0, "fallback", [], []⟩ := by
  constructor
  · simp [product_need_recommend, h]
  · simp [detect_error_type_hybrid, h]

/-- C1 witness: the amended claim at the concrete whitespace input `" "`. -/
theorem empty_text_shortcircuit_witness :
    product_need_recommend envNoStages "  " = .error 400 ∧
    detect_error_type_hybrid envHybridBare "  " =
      ⟨some "General Repair", 0, "fallback", [], []⟩ :=
  empty_text_shortcircuit envNoStages envHybridBare "  " (by decide)

/-! ## Claim C5 — feedback trigger -/

/-- C5 counterexample: a call on which every stage abstains returns the
null-label response with confidence `0.0 < 0.5`, yet appends *no* feedback
record — the all-stages-abstain path returns before the feedback block. -/
theorem null_label_no_feedback :
    product_need_recommend envNoStages "qwzk" = .ok (noPredictionResponse, []) ∧
    noPredictionResponse.confidence < 1/2 ∧
    noPredictionResponse.component = none := by
  refine ⟨rfl, by norm_num [noPredictionResponse], rfl⟩

/-- C5 (amended): with the feedback module loaded, one call of the
recommend endpoint appends exactly one feedback record when the returned
label is non-null and the confidence is below `0.5`, and appends nothing
otherwise — in particular, calls returning a null label (confidence `0.0`)
append nothing. -/
theorem feedback_append_spec (env : AppEnv) (text : String)
    (r : ProductNeedResponse) (fb : List FeedbackRecord)
    (h : product_need_recommend env text = .ok (r, fb))
    (ha : env.hierarchicalAvailable = true) :
    fb = if r.component.isSome ∧ r.confidence < 1/2 then
      [⟨pyStrip text, r.component, r.confidence, r.source⟩] else [] := by
  simp only [product_need_recommend] at h
  split at h
  · exact absurd h (by simp)
  · split at h
    · simp only [Except.ok.injEq, Prod.mk.injEq] at h
      obtain ⟨rfl, rfl⟩ := h
      simp [noPredictionResponse]
    · rename_i fl fc src alts grp heq
      simp only [Except.ok.injEq, Prod.mk.injEq] at h
      obtain ⟨rfl, rfl⟩ := h
      rw [ha]
      by_cases hc : fc < 1/2
      · simp [hc]
      · simp [hc]

/-! ## Alternatives well-formedness machinery (claim C4) -/

theorem recommendStage1_alts (env : AppEnv) (text : String) (l : String) (c : ℚ)
    (s : String) (alts : List (String × ℚ))
    (h : recommendStage1 env text = some (l, c, s, alts)) :
    ∃ r, r ∈ env.rules ∧ l = r.component ∧ c = r.confidence ∧
      alts = (r.component, r.confidence) ::
        (r.related_components.take 4).map (fun rc => (rc, r.confidence * (8/10))) := by
  unfold recommendStage1 at h
  split at h
  · rcases hmr : match_rule env.rules text with _ | ⟨label, conf, expl, related⟩
    · rw [hmr] at h
      exact absurd h (by simp)
    · rw [hmr] at h
      simp only [Option.some.injEq, Prod.mk.injEq] at h
      obtain ⟨rfl, rfl, rfl, rfl⟩ := h
      obtain ⟨r, hfind, hpack⟩ := Option.map_eq_some'.mp hmr
      have hmem : r ∈ env.rules := List.mem_of_find?_eq_some hfind
      simp only [rulePack, Prod.mk.injEq] at hpack
      obtain ⟨h1, h2, _, h4⟩ := hpack
      exact ⟨r, hmem, h1.symm, h2.symm, by rw [h1, h2, h4]⟩
  · exact absurd h (by simp)

theorem recommendStage2_alts (env : AppEnv) (text : String) (comp : String) (conf : ℚ)
    (src : String) (alts : List (String × ℚ))
    (grouped : Option (List (String × List (String × ℚ))))
    (h : recommendStage2 env text = some (comp, conf, src, alts, grouped)) :
    ∃ base, alts = ((sortByConfDesc (dedupFirst base)).take 5).take 5 := by
  unfold recommendStage2 at h
  split at h
  · rcases hpr : predict_hierarchical env.hier text true with ⟨compOpt, conf0, src0, top50, grouped0⟩
    rw [hpr] at h
    cases compOpt with
    | none => exact absurd h (by simp)
    | some comp0 =>
      dsimp only at h
      by_cases hcne : comp0 ≠ ""
      · rw [if_pos hcne] at h
        simp only [Option.some.injEq, Prod.mk.injEq] at h
        obtain ⟨rfl, rfl, rfl, rfl, rfl⟩ := h
        exact ⟨top50 ++ get_related_components text comp0, rfl⟩
      · rw [if_neg hcne] at h
        exact absurd h (by simp)
  · exact absurd h (by simp)

theorem recommendStage3_alts (env : AppEnv) (text : String) (l : String) (c : ℚ)
    (s : String) (alts : List (String × ℚ))
    (h : recommendStage3 env text = some (l, c, s, alts)) :
    ∃ f pairs, env.flatModel = some f ∧ f text = Except.ok pairs ∧
      alts = (topKRanked pairs 5).take 5 := by
  unfold recommendStage3 at h
  rcases hf : env.flatModel with _ | f
  · rw [hf] at h
    exact absurd h (by simp)
  · rw [hf] at h
    rcases hpred : predict_product_need (some f) text with ⟨baseOpt, baseConf, top3⟩
    rw [hpred] at h
    cases baseOpt with
    | none => exact absurd h (by simp)
    | some baseLabel =>
      dsimp only at h
      by_cases hbl : baseLabel ≠ ""
      · rw [if_pos hbl] at h
        rcases hft : f text with e | pairs
        · have hx : predict_product_need (some f) text = (none, 0, []) := by
            simp [predict_product_need, hft]
          rw [hpred] at hx
          exact absurd hx (by simp)
        · rw [hft] at h
          simp only [Option.some.injEq, Prod.mk.injEq] at h
          obtain ⟨rfl, rfl, rfl, rfl⟩ := h
          exact ⟨f, pairs, rfl, hft, rfl⟩
      · rw [if_neg hbl] at h
        exact absurd h (by simp)

theorem map_fst_map_pair (l : List String) (q : ℚ) :
    (l.map (fun rc => (rc, q))).map Prod.fst = l := by
  induction l with
  | nil => simp
  | cons a t ih => simp [ih]

theorem finalize_alts_props (fl : String) (fc : ℚ) (alts0 final : List (String × ℚ))
    (hfinal : final =
      (if ¬ (alts0.map Prod.fst).contains fl then (fl, fc) :: alts0 else alts0).take 5)
    (hlen : alts0.length ≤ 5)
    (hnodup : (alts0.map Prod.fst).Nodup)
    (hshape : alts0.Pairwise (fun a b => b.2 ≤ a.2) ∨
      ∃ c tail, alts0 = (fl, c) :: tail ∧ ∀ p ∈ tail, p.2 = c * (8/10)) :
    final.length ≤ 5 ∧ (final.map Prod.fst).Nodup ∧ fl ∈ final.map Prod.fst ∧
      ((final.drop 1).map Prod.snd).Pairwise (fun a b => b ≤ a) := by
  by_cases hcont : (alts0.map Prod.fst).contains fl = true
  · have hfl : fl ∈ alts0.map Prod.fst := by simpa using hcont
    have hfinal' : final = alts0 := by
      rw [hfinal, if_neg (fun hh => hh hcont), List.take_of_length_le hlen]
    rw [hfinal']
    refine ⟨hlen, hnodup, hfl, ?_⟩
    rw [List.pairwise_map]
    rcases hshape with hs | ⟨c, tail, rfl, htail⟩
    · exact List.Pairwise.sublist (List.drop_sublist 1 _) hs
    · simp only [List.drop_succ_cons, List.drop_zero]
      refine List.Pairwise.imp_of_mem (R := fun _ _ => True) ?_
        (List.pairwise_of_forall fun _ _ => trivial)
      intro a b ha hb _
      show b.2 ≤ a.2
      rw [htail a ha, htail b hb]
  · have hflnot : fl ∉ alts0.map Prod.fst := by simpa using hcont
    have hfinal' : final = (fl, fc) :: alts0.take 4 := by
      rw [hfinal, if_pos (by simpa using hcont), List.take_succ_cons]
    rw [hfinal']
    refine ⟨?_, ?_, ?_, ?_⟩
    · have h4 := List.length_take_le 4 alts0
      simp only [List.length_cons]
      omega
    · simp only [List.map_cons, List.nodup_cons]
      constructor
      · intro hmem
        rw [List.map_take] at hmem
        exact hflnot ((List.take_sublist 4 _).subset hmem)
      · rw [List.map_take]
        exact List.Nodup.sublist (List.take_sublist 4 _) hnodup
    · simp
    · simp only [List.drop_succ_cons, List.drop_zero]
      rw [List.pairwise_map]
      rcases hshape with hs | ⟨c, tail, rfl, htail⟩
      · exact List.Pairwise.sublist (List.take_sublist 4 _) hs
      · exact absurd (by simp : fl ∈ ((fl, c) :: tail).map Prod.fst) hflnot

/-- C4 (amended): for every recommend response carrying a non-null primary
label, the alternatives list has at most five entries with pairwise
distinct labels, the primary label always appears in it, and from
position 1 on the confidences are non-increasing — but the first element
need not be the primary label (a merged related component with a higher
score displaces it), which is the part of the original claim that fails.
The rule-table hypothesis states that no rule lists its own component
among its related components (true of the deployed `RULES`); the model
hypothesis states that the flat model's classes are pairwise distinct. -/
theorem recommend_alternatives_wellformed (env : AppEnv) (text : String)
    (r : ProductNeedResponse) (fb : List FeedbackRecord) (l : String)
    (hrules : ∀ ru ∈ env.rules, (ru.component :: ru.related_components).Nodup)
    (hflat : ∀ f pairs t, env.flatModel = some f → f t = Except.ok pairs →
      (pairs.map Prod.fst).Nodup)
    (h : product_need_recommend env text = .ok (r, fb))
    (hl : r.component = some l) :
    r.alternatives.length ≤ 5 ∧
    (r.alternatives.map Prod.fst).Nodup ∧
    l ∈ r.alternatives.map Prod.fst ∧
    ((r.alternatives.drop 1).map Prod.snd).Pairwise (fun a b => b ≤ a) := by
  simp only [product_need_recommend] at h
  split at h
  · exact absurd h (by simp)
  · split at h
    · simp only [Except.ok.injEq, Prod.mk.injEq] at h
      obtain ⟨rfl, rfl⟩ := h
      simp [noPredictionResponse] at hl
    · rename_i fl fc src alts0 grp heq
      simp only [Except.ok.injEq, Prod.mk.injEq] at h
      obtain ⟨rfl, rfl⟩ := h
      have hfl : fl = l := by simpa using hl
      subst hfl
      have hfacts : alts0.length ≤ 5 ∧ (alts0.map Prod.fst).Nodup ∧
          (alts0.Pairwise (fun a b => b.2 ≤ a.2) ∨
            ∃ c tail, alts0 = (fl, c) :: tail ∧ ∀ p ∈ tail, p.2 = c * (8/10)) := by
        rcases h1 : recommendStage1 env (pyStrip text) with _ | ⟨l1, c1, s1, alts1⟩
        · rcases h2 : recommendStage2 env (pyStrip text) with _ | ⟨l2, c2, s2, alts2, g2⟩
          · rw [h1, h2] at heq
            dsimp only at heq
            obtain ⟨o3, ho3, hmap⟩ := Option.map_eq_some'.mp heq
            obtain ⟨l3, c3, s3, alts3⟩ := o3
            simp only [Prod.mk.injEq] at hmap
            obtain ⟨rfl, rfl, rfl, rfl, rfl⟩ := hmap
            obtain ⟨f, pairs, hfm, hok, rfl⟩ :=
              recommendStage3_alts env (pyStrip text) l3 c3 s3 alts3 ho3
            have hnd : (pairs.map Prod.fst).Nodup := hflat f pairs (pyStrip text) hfm hok
            refine ⟨?_, ?_, Or.inl ?_⟩
            · exact le_trans (List.length_take_le 5 _) le_rfl
            · rw [List.map_take]
              exact List.Nodup.sublist (List.take_sublist 5 _)
                (topKRanked_labels_nodup pairs 5 hnd)
            · exact List.Pairwise.sublist (List.take_sublist 5 _)
                (topKRanked_sorted pairs 5)
          · rw [h1, h2] at heq
            dsimp only at heq
            simp only [Option.some.injEq, Prod.mk.injEq] at heq
            obtain ⟨rfl, rfl, rfl, rfl, rfl⟩ := heq
            obtain ⟨base, rfl⟩ :=
              recommendStage2_alts env (pyStrip text) l2 c2 s2 alts2 g2 h2
            refine ⟨?_, ?_, Or.inl ?_⟩
            · exact List.length_take_le 5 _
            · rw [List.map_take]
              refine List.Nodup.sublist (List.take_sublist 5 _) ?_
              rw [List.map_take]
              refine List.Nodup.sublist (List.take_sublist 5 _) ?_
              exact (((sortByConfDesc_perm (dedupFirst base)).map Prod.fst).nodup_iff).mpr
                (dedupFirst_keys_nodup base)
            · refine List.Pairwise.sublist (List.take_sublist 5 _) ?_
              exact List.Pairwise.sublist (List.take_sublist 5 _)
                (sortByConfDesc_sorted (dedupFirst base))
        · rw [h1] at heq
          dsimp only at heq
          simp only [Option.some.injEq, Prod.mk.injEq] at heq
          obtain ⟨rfl, rfl, rfl, rfl, rfl⟩ := heq
          obtain ⟨ru, hrmem, hel, hec, hea⟩ :=
            recommendStage1_alts env (pyStrip text) l1 c1 s1 alts1 h1
          subst hel
          subst hec
          subst hea
          have hnd := hrules ru hrmem
          rw [List.nodup_cons] at hnd
          refine ⟨?_, ?_, Or.inr ⟨ru.confidence,
            (ru.related_components.take 4).map (fun rc => (rc, ru.confidence * (8/10))),
            rfl, ?_⟩⟩
          · have h4 := List.length_take_le 4 ru.related_components
            simp only [List.length_cons, List.length_map]
            omega
          · simp only [List.map_cons, map_fst_map_pair, List.nodup_cons]
            constructor
            · intro hmem
              exact hnd.1 ((List.take_sublist 4 _).subset hmem)
            · exact List.Nodup.sublist (List.take_sublist 4 _) hnd.2
          · intro p hp
            obtain ⟨rc, _, rfl⟩ := List.mem_map.mp hp
            rfl
      obtain ⟨hlen0, hnodup0, hshape0⟩ := hfacts
      exact finalize_alts_props fl fc alts0 _ rfl hlen0 hnodup0 hshape0

/-- C4 counterexample: on `envDisplaced` with text `"slow"` the primary
label is `A` (renormalized probability `3/5`), but the related components
merged at score `0.7` displace it, so the first alternative is
`RAM Upgrade`, not the primary label — refuting "its first element's label
equals the primary predicted label". -/
theorem primary_displaced_counterexample :
    (product_need_recommend envDisplaced "slow").map
        (fun p => (p.1.component, p.1.alternatives.map Prod.fst)) =
      .ok (some "A", ["RAM Upgrade", "SSD Upgrade", "CPU Upgrade", "A", "B"]) ∧
    "RAM Upgrade" ≠ "A" :=
  ⟨by rfl, by decide⟩

/-- C4 witness: the amended claim at a concrete flat-model run. -/
theorem recommend_alternatives_wellformed_witness :
    ([("RAM Upgrade", (3 : ℚ)/10), ("SSD Upgrade", 1/5)].length ≤ 5) ∧
    (([("RAM Upgrade", (3 : ℚ)/10), ("SSD Upgrade", 1/5)].map Prod.fst).Nodup) ∧
    ("RAM Upgrade" ∈ [("RAM Upgrade", (3 : ℚ)/10), ("SSD Upgrade", 1/5)].map Prod.fst) ∧
    ((([("RAM Upgrade", (3 : ℚ)/10), ("SSD Upgrade", 1/5)].drop 1).map Prod.snd).Pairwise
      (fun a b => b ≤ a)) :=
  recommend_alternatives_wellformed envFlatLow "help"
    ⟨some "RAM Upgrade", 3/10, [("RAM Upgrade", 3/10), ("SSD Upgrade", 1/5)],
      true, "ml", true, none⟩
    [⟨"help", some "RAM Upgrade", 3/10, "ml"⟩] "RAM Upgrade"
    (by simp [envFlatLow])
    (fun f pairs t hf hok => by
      simp only [envFlatLow, Option.some.injEq] at hf
      subst hf
      simp only [Except.ok.injEq] at hok
      subst hok
      decide)
    (by rfl) rfl

/-- C5 witness: the amended feedback rule at a concrete low-confidence
flat-model run (confidence `3/10 < 0.5`, one record appended). -/
theorem feedback_append_spec_witness :
    ([⟨"help", some "RAM Upgrade", 3/10, "ml"⟩] : List FeedbackRecord) =
      (if (some "RAM Upgrade" : Option String).isSome ∧ ((3 : ℚ)/10) < 1/2 then
        [⟨pyStrip "help", some "RAM Upgrade", 3/10, "ml"⟩] else []) :=
  feedback_append_spec envFlatLow "help"
    ⟨some "RAM Upgrade", 3/10, [("RAM Upgrade", 3/10), ("SSD Upgrade", 1/5)],
      true, "ml", true, none⟩
    [⟨"help", some "RAM Upgrade", 3/10, "ml"⟩]
    (by rfl) rfl

/-! ## Claim C9 — top-5 selection and tie order -/

theorem hierFiltered_nonempty (mapping : List (String × List String)) (cat : String)
    (compPairs : List (String × ℚ)) (h : compPairs ≠ []) :
    hierFiltered mapping cat compPairs ≠ [] := by
  simp only [hierFiltered]
  split
  · exact h
  · rename_i hflt
    intro hc
    exact hflt (by rw [hc]; rfl)

/-- C9 counterexample: with a three-way probability tie among classes
stored in array order `B, A, C`, the returned top-5 order is `C, A, B` —
the reversed argsort order by array position — which is neither the
ascending nor the descending label order, so ties are *not* broken by
label. -/
theorem tie_not_broken_by_label :
    (predict_hierarchical hierTie "x" true).top5.map Prod.fst = ["C", "A", "B"] ∧
    (predict_hierarchical hierTie "x" true).top5.map Prod.snd = [1/3, 1/3, 1/3] ∧
    (["C", "A", "B"] : List String) ≠ ["A", "B", "C"] ∧
    (["C", "A", "B"] : List String) ≠ ["C", "B", "A"] :=
  ⟨by rfl, by rfl, by decide, by decide⟩

/-- C9 (amended): on the success path the returned top-5 alternatives are
five labels of maximal renormalized probability within the filtered set —
there is a completion of the top-5 to a permutation of the whole
renormalized vector that is sorted by non-increasing probability — and the
order (including equal-probability ties) is the reversed argsort of the
probability vector, i.e. determined by class-array position, not by label
name. -/
theorem predict_hierarchical_top5_spec
    (m : HierModels) (f g : String → Except String (List (String × ℚ)))
    (mapping : List (String × List String)) (text : String)
    (catPairs compPairs : List (String × ℚ)) (rm : Bool)
    (hm1 : m.categoryModel = some f) (hm2 : m.componentModel = some g)
    (hm3 : m.categoryMapping = some mapping)
    (hcat : f text = Except.ok catPairs) (hcatne : catPairs ≠ [])
    (hcomp : g text = Except.ok compPairs) (hcompne : compPairs ≠ []) :
    (predict_hierarchical m text rm).top5 =
      topKRanked (hierRenormalized (hierFiltered mapping
        ((catPairs.getD (argmaxIdx (catPairs.map Prod.snd)) ("", 0)).1) compPairs)) 5 ∧
    ∃ rest,
      ((predict_hierarchical m text rm).top5 ++ rest).Perm
        (hierRenormalized (hierFiltered mapping
          ((catPairs.getD (argmaxIdx (catPairs.map Prod.snd)) ("", 0)).1) compPairs)) ∧
      ((predict_hierarchical m text rm).top5 ++ rest).Pairwise
        (fun a b => b.2 ≤ a.2) := by
  obtain ⟨cm, om, mp⟩ := m
  dsimp only at hm1 hm2 hm3
  subst hm1
  subst hm2
  subst hm3
  have hce : catPairs.isEmpty = false := List.isEmpty_eq_false.mpr hcatne
  have hpe : (hierFiltered mapping
      ((catPairs.getD (argmaxIdx (catPairs.map Prod.snd)) ("", 0)).1) compPairs).isEmpty
      = false :=
    List.isEmpty_eq_false.mpr (hierFiltered_nonempty _ _ _ hcompne)
  have htop : (predict_hierarchical ⟨some f, some g, some mapping⟩ text rm).top5 =
      topKRanked (hierRenormalized (hierFiltered mapping
        ((catPairs.getD (argmaxIdx (catPairs.map Prod.snd)) ("", 0)).1) compPairs)) 5 := by
    simp only [predict_hierarchical, hcat, hcomp, hce, hpe, Bool.false_eq_true,
      if_false]
  refine ⟨htop, ?_⟩
  rw [htop]
  exact topKRanked_extends _ 5

/-- C9 witness: the amended claim at the concrete tied-probability run. -/
theorem predict_hierarchical_top5_spec_witness :
    (predict_hierarchical hierTie "x" true).top5 =
      topKRanked (hierRenormalized (hierFiltered [("Cat", ["A", "B", "C"])]
        (([("Cat", (1 : ℚ))].getD (argmaxIdx ([("Cat", (1 : ℚ))].map Prod.snd)) ("", 0)).1)
        [("B", 1/3), ("A", 1/3), ("C", 1/3)])) 5 ∧
    ∃ rest,
      ((predict_hierarchical hierTie "x" true).top5 ++ rest).Perm
        (hierRenormalized (hierFiltered [("Cat", ["A", "B", "C"])]
          (([("Cat", (1 : ℚ))].getD (argmaxIdx ([("Cat", (1 : ℚ))].map Prod.snd)) ("", 0)).1)
          [("B", 1/3), ("A", 1/3), ("C", 1/3)])) ∧
      ((predict_hierarchical hierTie "x" true).top5 ++ rest).Pairwise
        (fun a b => b.2 ≤ a.2) :=
  predict_hierarchical_top5_spec hierTie
    (fun _ => .ok [("Cat", 1)])
    (fun _ => .ok [("B", 1/3), ("A", 1/3), ("C", 1/3)])
    [("Cat", ["A", "B", "C"])] "x"
    [("Cat", 1)] [("B", 1/3), ("A", 1/3), ("C", 1/3)] true
    rfl rfl rfl rfl (by decide) rfl (by decide)
